import Mathlib

/-!
Verification development for the advent-of-games repository.

The definitions below are shallow embeddings of the game logic found in the
repository's source files:

* `packages/game-01/src/Game.tsx` (snake game: seeded RNG, level generator,
  breadth-first connectivity check, per-tick movement and collision effects),
* the Mastermind component (`checkGuess`),
* `packages/game-04` (Frogger-style crossing game: hitbox collision and the
  per-tick collision-check effect),
* the hay-management component (zustand store: `tick`, `makeHay`,
  `startCovering`, `stopCovering`, weather configs).

JavaScript numbers are modelled as `Int`/`ℚ`, 32-bit integer operations as
`Nat` arithmetic modulo 2^32, `Math.random()` as an explicit entropy
parameter, and React state updates as explicit state-passing where later
`set` calls to the same field win.
-/

namespace Advent

/-! ### game-01 (snake): data model and seeded RNG -/

structure Point where
  x : Int
  y : Int
deriving DecidableEq, Repr

instance : Inhabited Point := ⟨⟨0, 0⟩⟩

def GRID_SIZE : Int := 20

def gridN : ℕ := 20

def INITIAL_SNAKE : List Point := [⟨10, 10⟩, ⟨10, 11⟩, ⟨10, 12⟩]

inductive Direction
  | UP
  | DOWN
  | LEFT
  | RIGHT
deriving DecidableEq, Repr

def dirDelta : Direction → Point
  | .UP => ⟨0, -1⟩
  | .DOWN => ⟨0, 1⟩
  | .LEFT => ⟨-1, 0⟩
  | .RIGHT => ⟨1, 0⟩

def UINT32 : ℕ := 4294967296

/-- One step of the string-hash in `SeededRNG`'s constructor:
`h = Math.imul(h ^ seedStr.charCodeAt(i), 2654435761)`, on 32-bit patterns. -/
def hashStep (h : ℕ) (c : Char) : ℕ :=
  ((h ^^^ c.toNat) * 2654435761) % UINT32

/-- The `SeededRNG` constructor: fold `hashStep` over the seed string starting
from `0xdeadbeef`, then `(h ^ (h >>> 16)) >>> 0`. -/
def hashSeed (s : String) : ℕ :=
  let h := s.data.foldl hashStep 0xdeadbeef
  h ^^^ (h >>> 16)

/-- `SeededRNG.next`: LCG step `seed = (seed * 1664525 + 1013904223) % 2^32`,
returning `seed / 2^32` together with the new internal state. -/
def rngNext (s : ℕ) : ℚ × ℕ :=
  let s' := (s * 1664525 + 1013904223) % UINT32
  (((s' : ℚ) / (UINT32 : ℚ)), s')

/-- `SeededRNG.nextInt(min, max) = Math.floor(next() * (max - min + 1)) + min`. -/
def rngInt (s : ℕ) (lo hi : Int) : Int × ℕ :=
  let p := rngNext s
  (Int.floor (p.1 * ((hi : ℚ) - (lo : ℚ) + 1)) + lo, p.2)

/-- The double closest to the literal `0.2` (used in `rng.next() > 0.2`). -/
def js02 : ℚ := 3602879701896397 / 18014398509481984

/-- The double closest to the literal `0.3` (used in `rng.next() > 0.3`). -/
def js03 : ℚ := 5404319552844595 / 18014398509481984

/-! ### game-01: breadth-first connectivity check (`isConnected`) -/

/-- Whether the wall grid marks cell `(c % n, c / n)`; a wall cell is marked
when some listed wall has exactly those coordinates (out-of-bounds walls are
dropped by the source's bounds check and can never match an in-range cell). -/
def cellFree (walls : List Point) (n : ℕ) (c : ℕ) : Bool :=
  !(walls.any fun w => w.x == Int.ofNat (c % n) && w.y == Int.ofNat (c / n))

/-- The body of `isConnected`'s `while (queue.length > 0)` loop.  Cells are
encoded as `y * n + x`; the queue is FIFO (`shift`/`push`), `visited` records
enqueued cells, and the result is the number of dequeued cells.  Neighbours
are visited in the source's order (up, down, left, right), with toroidal
wraparound `(v + n) % n`.  The fuel `n * n` bounds the number of dequeues,
which never exceeds the number of cells since each cell is enqueued at most
once. -/
def bfsLoop (walls : List Point) (n : ℕ) :
    ℕ → List ℕ → List ℕ → ℕ → ℕ
  | 0, _, _, cnt => cnt
  | _ + 1, [], _, cnt => cnt
  | fuel + 1, c :: queue, visited, cnt =>
    let x := c % n
    let y := c / n
    let nbrs := [x + n * ((y + n - 1) % n),
                 x + n * ((y + 1) % n),
                 ((x + n - 1) % n) + n * y,
                 ((x + 1) % n) + n * y]
    let st := nbrs.foldl
      (fun (st : List ℕ × List ℕ) nb =>
        if cellFree walls n nb && !(st.2.contains nb) then
          (st.1 ++ [nb], nb :: st.2)
        else st)
      (queue, visited)
    bfsLoop walls n fuel st.1 st.2 (cnt + 1)

/-- `isConnected(walls, gridSize)`: find the free cells in scan order
(`y` outer, `x` inner), fail if there are none, and otherwise run the
breadth-first search from the first free cell and compare the number of
visited cells with the number of free cells. -/
def isConnected (walls : List Point) (n : ℕ) : Bool :=
  let frees := (List.range (n * n)).filter (cellFree walls n)
  match frees with
  | [] => false
  | start :: _ => bfsLoop walls n (n * n) [start] [start] 0 == frees.length

/-! ### game-01: level generator (`generateLevel`) -/

/-- Pattern 0 (random points): `count` iterations each drawing `x` then `y`
with `nextInt(0, GRID_SIZE - 1)`. -/
def pat0Loop (acc : List Point) (rng : ℕ) : ℕ → List Point × ℕ
  | 0 => (acc, rng)
  | k + 1 =>
    let px := rngInt rng 0 (GRID_SIZE - 1)
    let py := rngInt px.2 0 (GRID_SIZE - 1)
    pat0Loop (acc ++ [⟨px.1, py.1⟩]) py.2 k

/-- One stripe of pattern 1: for `i` in `0..GRID_SIZE-1`, draw `next()` and
push `(fixed, i)` (vertical) or `(i, fixed)` (horizontal) when it exceeds the
double `0.2`. -/
def pat1Row (isV : Bool) (fixed : Int) (st : List Point × ℕ) : List Point × ℕ :=
  (List.range 20).foldl
    (fun (st : List Point × ℕ) i =>
      let p := rngNext st.2
      if p.1 > js02 then
        (st.1 ++ [if isV then ⟨fixed, (i : Int)⟩ else ⟨(i : Int), fixed⟩], p.2)
      else (st.1, p.2))
    st

/-- Pattern 1 (stripes): `count` stripes, each drawing a `fixed` coordinate
with `nextInt(2, GRID_SIZE - 3)` and then one stripe of cells. -/
def pat1Loop (st : List Point × ℕ) (isV : Bool) : ℕ → List Point × ℕ
  | 0 => st
  | k + 1 =>
    let pf := rngInt st.2 2 (GRID_SIZE - 3)
    pat1Loop (pat1Row isV pf.1 (st.1, pf.2)) isV k

/-- The gap-punching loop of pattern 2: `gapCount` times, when the list is
non-empty, draw `idx = nextInt(0, len - 1)`, splice out one element, and when
`idx` still indexes the shortened list splice out a second one. -/
def pat2Gaps (st : List Point × ℕ) : ℕ → List Point × ℕ
  | 0 => st
  | k + 1 =>
    if st.1.length > 0 then
      let pi := rngInt st.2 0 ((st.1.length : Int) - 1)
      let l1 := st.1.eraseIdx pi.1.toNat
      let l2 := if pi.1.toNat < l1.length then l1.eraseIdx pi.1.toNat else l1
      pat2Gaps (l2, pi.2) k
    else pat2Gaps st k

/-- Pattern 2 ring construction: the two `for` loops pushing the horizontal
then vertical edges of the concentric ring at distance `inset`. -/
def pat2Ring (inset : Int) : List Point :=
  let hs := (List.range (20 - 2 * inset).toNat).foldl
    (fun acc i =>
      let x := inset + (i : Int)
      acc ++ [⟨x, inset⟩, ⟨x, GRID_SIZE - inset - 1⟩])
    []
  (List.range (20 - 2 * inset).toNat).foldl
    (fun acc i =>
      let y := inset + (i : Int)
      acc ++ [⟨inset, y⟩, ⟨GRID_SIZE - inset - 1, y⟩])
    hs

/-- Direction table of the spiral (pattern 3). -/
def spiralDirs : List Point := [⟨0, -1⟩, ⟨1, 0⟩, ⟨0, 1⟩, ⟨-1, 0⟩]

/-- The inner `for (s = 0; s < steps; s++)` walk of the spiral: advance the
cursor, and when in bounds draw `next()` and push the cell when it exceeds
the double `0.3`. -/
def pat3Inner (d : Point) :
    ℕ → (Int × Int × List Point × ℕ) → Int × Int × List Point × ℕ
  | 0, st => st
  | k + 1, (x, y, acc, rng) =>
    let x' := x + d.x
    let y' := y + d.y
    if 0 ≤ x' ∧ x' < GRID_SIZE ∧ 0 ≤ y' ∧ y' < GRID_SIZE then
      let p := rngNext rng
      if p.1 > js03 then pat3Inner d k (x', y', acc ++ [⟨x', y'⟩], p.2)
      else pat3Inner d k (x', y', acc, p.2)
    else pat3Inner d k (x', y', acc, rng)

/-- Pattern 3 (spiral): `GRID_SIZE * 2` legs starting from the grid centre;
after each leg the direction rotates and on even indices the leg length
grows. -/
def pat3Loop (rng : ℕ) : List Point × ℕ :=
  let st := (List.range 40).foldl
    (fun (st : Int × Int × ℕ × ℕ × List Point × ℕ) i =>
      let (x, y, steps, dir, acc, r) := st
      let inner := pat3Inner (spiralDirs.getD dir ⟨0, 0⟩) steps (x, y, acc, r)
      let (x', y', acc', r') := inner
      let dir' := (dir + 1) % 4
      let steps' := if i % 2 == 0 then steps + 1 else steps
      (x', y', steps', dir', acc', r'))
    (10, 10, 1, 0, [], rng)
  (st.2.2.2.2.1, st.2.2.2.2.2)

/-- Build the candidate wall list for one attempt: seed the RNG with
`seedStr-attempt`, draw the pattern selector, run the selected pattern, and
filter out the initial snake's footprint
(`!(w.x === 10 && w.y >= 10 && w.y <= 12)`). -/
def attemptWalls (seedStr : String) (attempt : ℕ) : List Point :=
  let rng0 := hashSeed (seedStr ++ "-" ++ toString attempt)
  let pp := rngInt rng0 0 3
  let walls :=
    if pp.1 = 0 then
      let pc := rngInt pp.2 10 25
      (pat0Loop [] pc.2 pc.1.toNat).1
    else if pp.1 = 1 then
      let pv := rngNext pp.2
      let pc := rngInt pv.2 2 4
      (pat1Loop ([], pc.2) (pv.1 > (1 / 2 : ℚ)) pc.1.toNat).1
    else if pp.1 = 2 then
      let pinset := rngInt pp.2 3 6
      let ring := pat2Ring pinset.1
      let pg := rngInt pinset.2 2 4
      (pat2Gaps (ring, pg.2) pg.1.toNat).1
    else
      (pat3Loop pp.2).1
  walls.filter fun w => !(decide (w.x = 10 ∧ 10 ≤ w.y ∧ w.y ≤ 12))

/-- The `while (attempt < 100)` retry loop of `generateLevel`: build the
candidate walls for the current attempt, return them when `isConnected`
accepts them, otherwise move to the next attempt; when the remaining
attempts run out return the empty board. -/
def genLoop (seedStr : String) : ℕ → ℕ → List Point
  | 0, _ => []
  | fuel + 1, attempt =>
    if isConnected (attemptWalls seedStr attempt) gridN then
      attemptWalls seedStr attempt
    else genLoop seedStr fuel (attempt + 1)

/-- `generateLevel(seedStr)`: run the retry loop from attempt 0 with the
source's bound of 100 attempts. -/
def generateLevel (seedStr : String) : List Point := genLoop seedStr 100 0

/-! ### game-01: runtime state machine

The component's state (`useState` hooks) is collected in `G1State`; the
memoised `walls` and the `Math.random()` entropy stream consumed by
`spawnFruit` are parameters of the step functions.  React's batched
`setState` semantics are modelled by threading one draft record through the
effect body, later writes to a field overwriting earlier ones. -/

/-- `p ∈ l` in the source's style: `l.some(q => q.x === p.x && q.y === p.y)`. -/
def containsPt (l : List Point) (p : Point) : Bool :=
  l.any fun q => q.x == p.x && q.y == p.y

/-- An entropy stream standing for successive pairs of `Math.random()` draws. -/
abbrev EntStream := ℕ → ℚ × ℚ

/-- `spawnFruit`'s `while (attempts < 100)` loop: draw a candidate cell from
the entropy stream, accept it when it avoids the snake and the walls,
otherwise retry; when the attempts run out no fruit is placed.  Returns the
placed fruit (if any) and the next entropy index. -/
def spawnFruitLoop (ent : EntStream) (snake walls : List Point) :
    ℕ → ℕ → Option Point × ℕ
  | 0, idx => (none, idx)
  | fuel + 1, idx =>
    let r := ent idx
    let p : Point := ⟨Int.floor (r.1 * 20), Int.floor (r.2 * 20)⟩
    if containsPt snake p || containsPt walls p then
      spawnFruitLoop ent snake walls fuel (idx + 1)
    else (some p, idx + 1)

/-- `spawnFruit` with the source's attempt bound of 100. -/
def spawnFruit (ent : EntStream) (snake walls : List Point) (idx : ℕ) :
    Option Point × ℕ :=
  spawnFruitLoop ent snake walls 100 idx

/-- Edge wraparound applied to each head coordinate. -/
def wrapCoord (v : Int) : Int :=
  if v < 0 then GRID_SIZE - 1 else if v ≥ GRID_SIZE then 0 else v

/-- The new head position `prevSnake[0] + DIRECTIONS[direction]`, wrapped. -/
def newHeadOf (snake : List Point) (d : Direction) : Point :=
  let h := snake.headI
  ⟨wrapCoord (h.x + (dirDelta d).x), wrapCoord (h.y + (dirDelta d).y)⟩

/-- The `setSnake` updater of `moveSnake`: when the new head overlaps any
segment of the previous snake the snake is returned unchanged and `isAlive`
is cleared; otherwise the head is prepended and the tail dropped. -/
def moveSnakeF (snake : List Point) (d : Direction) : List Point × Bool :=
  let nh := newHeadOf snake d
  if containsPt snake nh then (snake, false)
  else (nh :: snake.dropLast, true)

/-- `changeDirection`'s updater: a new direction that is the exact reversal
of the previous one is ignored, any other input replaces it. -/
def isOppositeDir (nd prev : Direction) : Bool :=
  (nd == .UP && prev == .DOWN) || (nd == .DOWN && prev == .UP) ||
  (nd == .LEFT && prev == .RIGHT) || (nd == .RIGHT && prev == .LEFT)

def changeDir (prev nd : Direction) : Direction :=
  if isOppositeDir nd prev then prev else nd

/-- The 180-degree reversal of a direction (specification-side helper). -/
def oppositeDir : Direction → Direction
  | .UP => .DOWN
  | .DOWN => .UP
  | .LEFT => .RIGHT
  | .RIGHT => .LEFT

inductive G1Phase
  | START
  | COUNTDOWN
  | PLAYING
  | GAMEOVER
deriving DecidableEq, Repr

structure G1State where
  snake : List Point
  dir : Direction
  alive : Bool
  fruit : Option Point
  score : ℕ
  lives : ℕ
  speed : ℕ
  phase : G1Phase
  countdown : ℕ
  entIdx : ℕ
deriving DecidableEq, Repr

/-- The initial hook values of the component. -/
def g1Init : G1State :=
  { snake := INITIAL_SNAKE
    dir := .UP
    alive := true
    fruit := none
    score := 0
    lives := 0
    speed := 150
    phase := .START
    countdown := 3
    entIdx := 0 }

/-- The effect at lines 390-437 of `Game.tsx`, run against the rendered
snapshot `t`.  The branches execute in source order on one draft record:
the death branch (`!isAlive && gameState === 'PLAYING'`) increments the
death counter and sets `GAMEOVER`; the guard `gameState !== 'PLAYING'` reads
the snapshot's phase; the fruit branch grows the snake, bumps the score,
speeds up, and respawns the fruit (keeping the old fruit when placement
fails); the wall branch increments the death counter, resets the snake, and
enters `COUNTDOWN`. -/
def g1EffectCore (walls : List Point) (ent : EntStream) (t : G1State) : G1State :=
  let s1 :=
    if t.alive = false ∧ t.phase = G1Phase.PLAYING then
      { t with lives := t.lives + 1, phase := .GAMEOVER }
    else t
  if t.phase ≠ G1Phase.PLAYING then s1
  else
    let head := t.snake.headI
    let s2 :=
      if t.fruit = some head then
        let grown := t.snake ++ [t.snake.getLast?.getD default]
        let fr := spawnFruit ent t.snake walls t.entIdx
        { s1 with
          snake := grown
          score := t.score + 1
          speed := max 80 (t.speed - 2)
          fruit := (match fr.1 with | some p => some p | none => t.fruit)
          entIdx := fr.2 }
      else s1
    if containsPt walls head then
      { s2 with
        lives := s2.lives + 1
        phase := .COUNTDOWN
        snake := INITIAL_SNAKE
        dir := .UP
        alive := true
        countdown := 3 }
    else s2

/-- Environment-scheduled events driving the component: the PLAY button, a
countdown interval tick, a game-loop tick, an arrow-key press, and the
firing of the 1-second respawn timeout scheduled by the death branch. -/
inductive G1Ev
  | press
  | cdTick
  | tick
  | input (d : Direction)
  | respawn

/-- Apply one event: each state-changing event is followed by a run of the
collision/fruit effect, whose dependencies include `snake` and `gameState`
(but not `direction`, so key presses alone do not re-run it). -/
def g1Apply (walls : List Point) (ent : EntStream) (s : G1State) : G1Ev → G1State
  | .press =>
    if s.phase = G1Phase.START then
      g1EffectCore walls ent { s with phase := .COUNTDOWN, countdown := 3 }
    else s
  | .cdTick =>
    if s.phase = G1Phase.COUNTDOWN then
      let c := s.countdown - 1
      g1EffectCore walls ent
        (if c = 0 then { s with countdown := c, phase := .PLAYING }
         else { s with countdown := c })
    else s
  | .tick =>
    if s.phase = G1Phase.PLAYING ∧ s.alive = true then
      let m := moveSnakeF s.snake s.dir
      g1EffectCore walls ent { s with snake := m.1, alive := m.2 }
    else s
  | .input d =>
    if s.phase = G1Phase.PLAYING then { s with dir := changeDir s.dir d } else s
  | .respawn =>
    g1EffectCore walls ent
      { s with
        snake := INITIAL_SNAKE
        dir := .UP
        alive := true
        phase := .COUNTDOWN
        countdown := 3 }

/-- The completion effect (lines 465-469): it re-runs when `gameState` or
`score` changed and calls `onComplete(score * 100)` whenever the state is
`GAMEOVER`. -/
def g1Emit (pre post : G1State) : List Int :=
  if post.phase = G1Phase.GAMEOVER ∧
      (pre.phase ≠ G1Phase.GAMEOVER ∨ pre.score ≠ post.score) then
    [(post.score : Int) * 100]
  else []

/-- One event step together with the completion calls it causes. -/
def g1Step (walls : List Point) (ent : EntStream) (s : G1State) (e : G1Ev) :
    G1State × List Int :=
  let s' := g1Apply walls ent s e
  (s', g1Emit s s')

/-- Run a list of events, collecting every completion call. -/
def g1Run (walls : List Point) (ent : EntStream) (s : G1State) :
    List G1Ev → G1State × List Int
  | [] => (s, [])
  | e :: es =>
    let p := g1Step walls ent s e
    let q := g1Run walls ent p.1 es
    (q.1, p.2 ++ q.2)

/-! ### Mastermind: `checkGuess` -/

inductive MColor
  | red
  | green
  | blue
  | yellow
  | purple
  | orange
deriving DecidableEq, Repr

/-- `checkGuess(code, guess)`: the first pass walks positions `0..3`,
counting exact matches and accumulating the unmatched code and guess values
(the `codeFreq`/`guessFreq` multisets); the second pass adds, for every value
occurring among the unmatched guess values, the minimum of its two remaining
multiplicities.  Returns `(exactMatches, colorMatches)`. -/
def checkGuess (code guess : List MColor) : ℕ × ℕ :=
  let pass1 := (List.range 4).foldl
    (fun (st : ℕ × List MColor × List MColor) i =>
      let ci := code.getD i .red
      let gi := guess.getD i .red
      if ci = gi then (st.1 + 1, st.2.1, st.2.2)
      else (st.1, st.2.1 ++ [ci], st.2.2 ++ [gi]))
    (0, [], [])
  let codeRem := pass1.2.1
  let guessRem := pass1.2.2
  let colorMatches := guessRem.dedup.foldl
    (fun acc c => acc + min (guessRem.count c) (codeRem.count c)) 0
  (pass1.1, colorMatches)

/-! ### game-04 (crossing game): collision model and collision-check effect -/

inductive LaneType
  | SAFE
  | ROAD
  | RIVER
  | GOAL
deriving DecidableEq, Repr

inductive ObjectType
  | CAR
  | TRUCK
  | TURTLE
  | LOG
  | LILYPAD
deriving DecidableEq, Repr

structure Obstacle where
  x : ℚ
  type : ObjectType
  width : ℚ
  sinking : Bool := false
  sinkCycle : ℚ := 0
deriving DecidableEq, Repr

structure Lane where
  type : LaneType
  obstacles : List Obstacle
  speed : ℚ
  direction : Int
  id : ℕ
deriving DecidableEq, Repr

/-- The frog keeps a continuous `x` (drift on river lanes) and a discrete
row index `y` (the source's `frogPos.y`, clamped to `0..GRID_SIZE.rows-1`). -/
structure Frog where
  x : ℚ
  y : ℕ
deriving DecidableEq, Repr

def HITBOX_PADDING : ℚ := 15 / 100

/-- The shrink-padded interval-overlap test shared by `isColliding` and
`findPlatformUnder` (`obs.width || 1` treats a zero width as 1). -/
def overlapB (frog : Frog) (obs : Obstacle) : Bool :=
  let w := if obs.width = 0 then 1 else obs.width
  let frogLeft := frog.x + HITBOX_PADDING
  let frogRight := frog.x + 1 - HITBOX_PADDING
  let obsLeft := obs.x + HITBOX_PADDING
  let obsRight := obs.x + w - HITBOX_PADDING
  decide (frogLeft < obsRight ∧ frogRight > obsLeft)

/-- `isColliding`: scan the lane's obstacles; the first overlap answers
`true` for a road lane (hit by a car) and `false` for a river lane (standing
on a platform); with no overlap, being on a river lane is itself fatal. -/
def isColliding (frog : Frog) : List Obstacle → LaneType → Bool
  | [], lt => lt == .RIVER
  | obs :: rest, lt =>
    if overlapB frog obs then
      if lt == .ROAD then true
      else if lt == .RIVER then false
      else isColliding frog rest lt
    else isColliding frog rest lt

/-- `findPlatformUnder`: the first obstacle whose padded box overlaps the
frog's, if any. -/
def findPlatformUnder (frog : Frog) : List Obstacle → Option Obstacle
  | [] => none
  | obs :: rest =>
    if overlapB frog obs then some obs else findPlatformUnder frog rest

inductive G4Status
  | playing
  | won
  | lost
deriving DecidableEq, Repr

structure G4State where
  gameState : G4Status
  lives : ℕ
  time : ℚ
  frog : Frog
  lanes : List Lane
deriving DecidableEq, Repr

/-- The respawn position `{x: Math.floor(cols / 2), y: rows - 1}`. -/
def frogStart : Frog := ⟨7, 14⟩

/-- The collision-check effect (lines 431-469 of game-04): a no-op outside
`playing`; reaching the goal lane wins and reports
`lives * 100 + Math.floor(100 - time)`; a hit (or riding a sinking turtle on
a river lane) costs a life and resets the frog, or ends the game with score
0 when no life remains. -/
def g4Check (s : G4State) : G4State × List Int :=
  if s.gameState ≠ G4Status.playing then (s, [])
  else
    match s.lanes.get? s.frog.y with
    | none => (s, [])
    | some lane =>
      if lane.type = LaneType.GOAL then
        ({ s with gameState := .won },
         [(s.lives : Int) * 100 + Int.floor ((100 : ℚ) - s.time)])
      else
        let hit := isColliding s.frog lane.obstacles lane.type
        if hit then
          if 1 < s.lives then
            ({ s with lives := s.lives - 1, frog := frogStart }, [])
          else ({ s with lives := 0, gameState := .lost }, [0])
        else
          if lane.type = LaneType.RIVER then
            match findPlatformUnder s.frog lane.obstacles with
            | some p =>
              if p.type = ObjectType.TURTLE ∧ p.sinking = true then
                if 1 < s.lives then
                  ({ s with lives := s.lives - 1, frog := frogStart }, [])
                else ({ s with lives := 0, gameState := .lost }, [0])
              else (s, [])
            | none => (s, [])
          else (s, [])

/-! ### Hay-management game: store, operations, reachability

Timestamps (`Date.now()`) are rationals measured in milliseconds; the two
`Math.random()` draws a `tick` may consume (weather transition, next
duration) are explicit parameters.  The zustand `set`/`get` pattern of the
source reads every branch condition from the pre-tick snapshot `s` while
accumulating field updates in a draft record, later writes to the same field
overwriting earlier ones (exactly as the `updates` object does). -/

inductive WeatherType
  | SUNNY
  | CLOUDY
  | WINDY
  | RAINY
  | SNOWING
deriving DecidableEq, Repr

structure WeatherConfig where
  canMakeHay : Bool
  hayLossRate : ℚ
  minDuration : ℚ
  maxDuration : ℚ
  possibleTransitions : List WeatherType

def WEATHER_CONFIGS : WeatherType → WeatherConfig
  | .SUNNY => ⟨true, 0, 2, 6, [.SUNNY, .SUNNY, .CLOUDY, .WINDY]⟩
  | .CLOUDY => ⟨false, 0, 2, 3, [.SUNNY, .SUNNY, .SUNNY, .CLOUDY, .WINDY, .RAINY]⟩
  | .WINDY => ⟨false, 3 / 2, 2, 3, [.SUNNY, .SUNNY, .CLOUDY, .RAINY]⟩
  | .RAINY => ⟨false, 3, 2, 3, [.SUNNY, .SUNNY, .CLOUDY, .WINDY, .SNOWING, .SNOWING]⟩
  | .SNOWING => ⟨false, 50, 1, 2, [.SUNNY, .SUNNY, .CLOUDY]⟩

def GAME_DURATION : ℚ := 90
def BASE_COVER_TIME : ℚ := 2
def COVER_SCALING_FACTOR : ℚ := 1 / 10
def MAKE_HAY_DURATION : ℚ := 1 / 4
def TICK_RATE : ℚ := 100
def MAX_FIELD_HAY : ℚ := 90

/-- `getRandomDuration`: `min + Math.random() * (max - min)`. -/
def getRandomDuration (w : WeatherType) (e : ℚ) : ℚ :=
  (WEATHER_CONFIGS w).minDuration +
    e * ((WEATHER_CONFIGS w).maxDuration - (WEATHER_CONFIGS w).minDuration)

/-- `getNextWeather`: uniform pick
`transitions[Math.floor(Math.random() * transitions.length)]`. -/
def getNextWeather (w : WeatherType) (e : ℚ) : WeatherType :=
  let transitions := (WEATHER_CONFIGS w).possibleTransitions
  transitions.getD (Int.floor (e * (transitions.length : ℚ))).toNat .SUNNY

/-- `calculateCoverDuration(hay)`. -/
def calculateCoverDuration (hay : ℚ) : ℚ :=
  BASE_COVER_TIME + hay * COVER_SCALING_FACTOR

structure HayWeather where
  current : WeatherType
  nextChangeAt : ℚ
  duration : ℚ
deriving DecidableEq, Repr

structure HayState where
  isPlaying : Bool
  isGameOver : Bool
  startTime : ℚ
  elapsedTime : ℚ
  uncoveredHay : ℚ
  coveredHay : ℚ
  isMakingHay : Bool
  makeHayProgress : ℚ
  makeHayStartTime : Option ℚ
  isCovering : Bool
  coverProgress : ℚ
  coverStartTime : Option ℚ
  coverDuration : ℚ
  hayBeingTransferred : ℚ
  startUncoveredHay : ℚ
  startCoveredHay : ℚ
  weather : HayWeather
deriving DecidableEq, Repr

/-- The store's initial field values. -/
def hayInit : HayState :=
  { isPlaying := false
    isGameOver := false
    startTime := 0
    elapsedTime := 0
    uncoveredHay := 0
    coveredHay := 0
    isMakingHay := false
    makeHayProgress := 0
    makeHayStartTime := none
    isCovering := false
    coverProgress := 0
    coverStartTime := none
    coverDuration := 0
    hayBeingTransferred := 0
    startUncoveredHay := 0
    startCoveredHay := 0
    weather := ⟨.SUNNY, 5, 5⟩ }

/-- `startGame` at time `now` with entropy `e` for the initial sunny
duration. -/
def hayStartGame (s : HayState) (now e : ℚ) : HayState :=
  let duration := getRandomDuration .SUNNY e
  { s with
    isPlaying := true
    isGameOver := false
    startTime := now
    elapsedTime := 0
    uncoveredHay := 0
    coveredHay := 0
    isMakingHay := false
    makeHayProgress := 0
    makeHayStartTime := none
    isCovering := false
    coverProgress := 0
    coverStartTime := none
    weather := ⟨.SUNNY, duration, duration⟩ }

def hayEndGame (s : HayState) : HayState :=
  { s with isPlaying := false, isGameOver := true }

/-- `tick` at time `now`, with entropy `e1` (weather transition pick) and
`e2` (new duration).  Branches in source order: game-duration check,
hay-making progress, covering progress (`transferred` recomputed from the
covering-start snapshot), weather hay loss (skipped while covering, reading
the pre-tick `uncoveredHay`), and the weather change. -/
def hayTick (s : HayState) (now e1 e2 : ℚ) : HayState :=
  if s.isPlaying = false ∨ s.isGameOver = true then s
  else
    let newElapsed := (now - s.startTime) / 1000
    if newElapsed ≥ GAME_DURATION then hayEndGame s
    else
      let u1 := { s with elapsedTime := newElapsed }
      let u2 :=
        match s.isMakingHay, s.makeHayStartTime with
        | true, some t0 =>
          let elapsed := (now - t0) / 1000
          let progress := min (elapsed / MAKE_HAY_DURATION * 100) 100
          if progress ≥ 100 then
            { u1 with
              isMakingHay := false
              makeHayProgress := 0
              makeHayStartTime := none
              uncoveredHay := min (s.uncoveredHay + 1) MAX_FIELD_HAY }
          else { u1 with makeHayProgress := progress }
        | _, _ => u1
      let u3 :=
        match s.isCovering, s.coverStartTime with
        | true, some t0 =>
          let elapsed := (now - t0) / 1000
          let progress := min (elapsed / s.coverDuration * 100) 100
          let transferred : Int := Int.floor (s.hayBeingTransferred * (progress / 100))
          let u := { u2 with
            coveredHay := max 0 (s.startCoveredHay + (transferred : ℚ))
            uncoveredHay := max 0 (s.startUncoveredHay - (transferred : ℚ)) }
          if progress ≥ 100 then
            { u with
              isCovering := false
              coverProgress := 0
              coverStartTime := none
              hayBeingTransferred := 0 }
          else { u with coverProgress := progress }
        | _, _ => u2
      let u4 :=
        if s.isCovering = false ∧ 0 < s.uncoveredHay then
          let rate := (WEATHER_CONFIGS s.weather.current).hayLossRate
          if 0 < rate then
            { u3 with uncoveredHay := max 0 (s.uncoveredHay - rate * TICK_RATE / 1000) }
          else u3
        else u3
      if newElapsed ≥ s.weather.nextChangeAt then
        let nw := getNextWeather s.weather.current e1
        let nd := getRandomDuration nw e2
        { u4 with weather := ⟨nw, newElapsed + nd, nd⟩ }
      else u4

/-- `canMakeHay`. -/
def hayCanMakeHay (s : HayState) : Bool :=
  if s.isPlaying = false ∨ s.isGameOver = true ∨ s.isCovering = true ∨
      s.isMakingHay = true then false
  else if s.uncoveredHay ≥ MAX_FIELD_HAY then false
  else (WEATHER_CONFIGS s.weather.current).canMakeHay

/-- `makeHay` at time `now`. -/
def hayMakeHay (s : HayState) (now : ℚ) : HayState :=
  if hayCanMakeHay s = false then s
  else if s.uncoveredHay ≥ MAX_FIELD_HAY then s
  else
    { s with
      isMakingHay := true
      makeHayProgress := 0
      makeHayStartTime := some now }

/-- `startCovering` at time `now`. -/
def hayStartCovering (s : HayState) (now : ℚ) : HayState :=
  if s.isPlaying = false ∨ s.isGameOver = true ∨ s.isCovering = true ∨
      s.uncoveredHay ≤ 0 then s
  else
    { s with
      isCovering := true
      coverProgress := 0
      coverStartTime := some now
      coverDuration := calculateCoverDuration s.uncoveredHay
      hayBeingTransferred := s.uncoveredHay
      startUncoveredHay := s.uncoveredHay
      startCoveredHay := s.coveredHay }

/-- `stopCovering`: apply the stored progress pro-rata to the uncovered
side and cancel the transfer (`coveredHay` untouched). -/
def hayStopCovering (s : HayState) : HayState :=
  if s.isCovering = false then s
  else
    let transferred : Int := Int.floor (s.hayBeingTransferred * (s.coverProgress / 100))
    { s with
      isCovering := false
      coverProgress := 0
      coverStartTime := none
      hayBeingTransferred := 0
      uncoveredHay := max 0 (s.startUncoveredHay - (transferred : ℚ)) }

/-- A store operation together with the wall-clock time and entropy it
consumes. -/
inductive HayOp
  | startGame (now e : ℚ)
  | tick (now e1 e2 : ℚ)
  | makeHay (now : ℚ)
  | startCovering (now : ℚ)
  | stopCovering
  | endGame

def applyHayOp (s : HayState) : HayOp → HayState
  | .startGame now e => hayStartGame s now e
  | .tick now e1 e2 => hayTick s now e1 e2
  | .makeHay now => hayMakeHay s now
  | .startCovering now => hayStartCovering s now
  | .stopCovering => hayStopCovering s
  | .endGame => hayEndGame s

def HayOp.isStart : HayOp → Bool
  | .startGame _ _ => true
  | _ => false

/-- Validity of an operation issued when the last observed wall-clock time
is `t`: timestamps never decrease and `Math.random()` draws lie in
`[0, 1)`. -/
def hayOpValid (t : ℚ) : HayOp → Prop
  | .startGame now e => t ≤ now ∧ 0 ≤ e ∧ e < 1
  | .tick now e1 e2 => t ≤ now ∧ 0 ≤ e1 ∧ e1 < 1 ∧ 0 ≤ e2 ∧ e2 < 1
  | .makeHay now => t ≤ now
  | .startCovering now => t ≤ now
  | .stopCovering => True
  | .endGame => True

/-- The wall-clock lower bound after an operation. -/
def hayOpClock (t : ℚ) : HayOp → ℚ
  | .startGame now _ => now
  | .tick now _ _ => now
  | .makeHay now => now
  | .startCovering now => now
  | .stopCovering => t
  | .endGame => t

/-- States reachable from the store's initial state by valid operation
sequences, together with the last observed wall-clock time. -/
inductive HayReach : HayState → ℚ → Prop
  | init (t : ℚ) : HayReach hayInit t
  | step {s : HayState} {t : ℚ} (op : HayOp) :
      HayReach s t → hayOpValid t op → HayReach (applyHayOp s op) (hayOpClock t op)

/-! ## Claim C1 -/

theorem c1_spawnA :
    spawnFruit (fun _ => ((0 : ℚ), (0 : ℚ))) INITIAL_SNAKE [] 0 = (some ⟨0, 0⟩, 1) := by
  have h0 : (⌊(0 : ℚ) * 20⌋ : ℤ) = 0 := by rw [zero_mul, Int.floor_zero]
  show spawnFruitLoop _ _ _ 100 0 = _
  rw [spawnFruitLoop, h0]
  norm_num [containsPt, INITIAL_SNAKE]

theorem c1_spawnB :
    spawnFruit (fun _ => ((1 / 4 : ℚ), (1 / 4 : ℚ))) INITIAL_SNAKE [] 0 = (some ⟨5, 5⟩, 1) := by
  have h5 : (⌊(1 / 4 : ℚ) * 20⌋ : ℤ) = 5 := by
    have : ((1 / 4 : ℚ) * 20) = ((5 : ℤ) : ℚ) := by norm_num
    rw [this, Int.floor_intCast]
  show spawnFruitLoop _ _ _ 100 0 = _
  rw [spawnFruitLoop, h5]
  norm_num [containsPt, INITIAL_SNAKE]

theorem c1_weatherA : getNextWeather .SUNNY 0 = .SUNNY := by
  have h0 : (⌊(0 : ℚ) * (4 : ℕ)⌋ : ℤ) = 0 := by rw [zero_mul, Int.floor_zero]
  simp only [getNextWeather, WEATHER_CONFIGS]
  norm_num

theorem c1_weatherB : getNextWeather .SUNNY (9 / 10) = .WINDY := by
  have h3 : (⌊(9 / 10 : ℚ) * (4 : ℚ)⌋ : ℤ) = 3 := by
    rw [Int.floor_eq_iff]
    norm_num
  simp only [getNextWeather, WEATHER_CONFIGS, List.length]
  norm_num [h3, Int.toNat_ofNat]
  decide

/-- C1: the claimed property — that replaying the same seed and inputs
reproduces the snapshot sequence because no entropy outside the seed
influences gameplay state — fails on the code: `spawnFruit` places the
score-relevant fruit from `Math.random()` draws, and the hay game's weather
transitions likewise consume `Math.random()`.  Two runs that differ only in
those non-seeded draws produce different fruit positions and different
weather states. -/
theorem c1_entropy_feeds_gameplay :
    (spawnFruit (fun _ => ((0 : ℚ), (0 : ℚ))) INITIAL_SNAKE [] 0).1 ≠
      (spawnFruit (fun _ => ((1 / 4 : ℚ), (1 / 4 : ℚ))) INITIAL_SNAKE [] 0).1 ∧
    getNextWeather .SUNNY 0 ≠ getNextWeather .SUNNY (9 / 10) := by
  refine ⟨?_, ?_⟩
  · rw [c1_spawnA, c1_spawnB]
    simp
  · rw [c1_weatherA, c1_weatherB]
    simp

/-! ## Claim C2 -/

/-- C2: Mastermind scoring.  `checkGuess([R,R,G,G], [R,G,R,G])` yields 2
exact matches and 2 colour-only matches, and scoring any length-4 code
against itself yields 4 exact matches and 0 colour-only matches. -/
theorem c2_mastermind_scoring :
    checkGuess [.red, .red, .green, .green] [.red, .green, .red, .green] = (2, 2) ∧
    ∀ code : List MColor, code.length = 4 → checkGuess code code = (4, 0) := by
  constructor
  · decide
  · intro code hlen
    match code, hlen with
    | [a, b, c, d], _ => simp [checkGuess, List.range_succ]

/-- C2 witness: the general self-scoring fact applied to the concrete code
`[red, green, blue, yellow]`. -/
theorem c2_mastermind_scoring_witness :
    checkGuess [.red, .green, .blue, .yellow] [.red, .green, .blue, .yellow] = (4, 0) :=
  c2_mastermind_scoring.2 [.red, .green, .blue, .yellow] rfl

/-! ## Claim C3 -/

/-- Whether attempt `a` of seed `s` yields walls passing the connectivity
check. -/
def attemptOk (s : String) (a : ℕ) : Bool :=
  isConnected (attemptWalls s a) gridN

set_option maxRecDepth 10000 in
set_option maxHeartbeats 4000000 in
theorem isConnected_nil : isConnected [] gridN = true := by decide

attribute [irreducible] isConnected attemptWalls

theorem genLoop_eq (s : String) :
    ∀ n j,
    genLoop s n j =
      ((List.range' j n).find? (attemptOk s)).elim [] (attemptWalls s) := by
  intro n
  induction n with
  | zero =>
    intro j
    rfl
  | succ n ih =>
    intro j
    have hr : List.range' j (n + 1) = j :: List.range' (j + 1) n := rfl
    rw [genLoop, hr]
    by_cases hc : attemptOk s j = true
    · have hc2 : isConnected (attemptWalls s j) gridN = true := hc
      rw [List.find?_cons_of_pos _ hc, Option.elim_some, if_pos hc2]
    · have hc2 : ¬ isConnected (attemptWalls s j) gridN = true := hc
      rw [List.find?_cons_of_neg _ hc, if_neg hc2]
      exact ih (j + 1)

/-- C3: for every seed string, `generateLevel` returns a board accepted by
the breadth-first connectivity check (the empty fallback board is itself
connected), and it equals the wall list of the first attempt index `a < 100`
whose seed `seed-a` generates a connected candidate, or the empty board when
no attempt succeeds. -/
theorem c3_generator_connectivity (s : String) :
    isConnected (generateLevel s) gridN = true ∧
    generateLevel s =
      ((List.range 100).find? (attemptOk s)).elim [] (attemptWalls s) := by
  have hch := genLoop_eq s 100 0
  constructor
  · rw [generateLevel, hch]
    cases hf : (List.range' 0 100).find? (attemptOk s) with
    | none =>
      rw [Option.elim_none]
      exact isConnected_nil
    | some a =>
      rw [Option.elim_some]
      have h2 : attemptOk s a = true := List.find?_some hf
      exact h2
  · rw [generateLevel, hch, List.range_eq_range']

/-! ## Claim C4 -/

/-- The event trace of a game-01 instance in which the player self-collides,
is automatically respawned, and self-collides again: start, a full
countdown, two direction changes turning the snake back onto itself, the
fatal move tick — then the respawn timeout, a second countdown, and a second
fatal move. -/
def c4Trace : List G1Ev :=
  [.press, .cdTick, .cdTick, .cdTick, .input .LEFT, .input .DOWN, .tick,
   .respawn, .cdTick, .cdTick, .cdTick, .input .LEFT, .input .DOWN, .tick]

/-- A game-04 state about to win very slowly: the frog stands on the goal
lane after 250 seconds with one life left. -/
def c4SlowWin : G4State :=
  { gameState := .playing, lives := 1, time := 250, frog := ⟨7, 0⟩,
    lanes := [⟨.GOAL, [], 0, 1, 0⟩] }

theorem c4_goal_floor : (⌊(100 : ℚ) - 250⌋ : ℤ) = -150 := by
  have h : ((100 : ℚ) - 250) = ((-150 : ℤ) : ℚ) := by norm_num
  rw [h, Int.floor_intCast]

/-- C4: the claim — `onComplete` invoked at most once per instance, always
with a non-negative score — is contradicted by the code.  In game-01 the
death effect enters `GAMEOVER` and fires the completion callback on every
self-collision, then respawns, so the two-death trace fires it twice; and in
game-04 a win after 250 seconds with one life reports
`1 * 100 + Math.floor(100 - 250) = -50`, a negative score. -/
theorem c4_completion_calls :
    (g1Run [] (fun _ => (0, 0)) g1Init c4Trace).2 = [0, 0] ∧
    (g4Check c4SlowWin).2 = [-50] := by
  constructor
  · decide
  · have he : (g4Check c4SlowWin).2 = [(1 : Int) * 100 + ⌊(100 : ℚ) - (250 : ℚ)⌋] := rfl
    rw [he, c4_goal_floor]
    norm_num

/-! ## Claim C5 -/

/-- C5: for a snake of length at least 3 whose next head position lands on
one of its own body segments, the move step reports a collision and returns
the segment list unchanged, and the tick sets the terminal GAMEOVER phase
with the snake's position left exactly as it was. -/
theorem c5_self_collision (walls : List Point) (ent : EntStream) (s : G1State)
    (hphase : s.phase = G1Phase.PLAYING) (halive : s.alive = true)
    (hlen : 3 ≤ s.snake.length)
    (hhit : containsPt s.snake (newHeadOf s.snake s.dir) = true)
    (hfr : s.fruit ≠ some s.snake.headI)
    (hw : containsPt walls s.snake.headI = false) :
    moveSnakeF s.snake s.dir = (s.snake, false) ∧
    (g1Step walls ent s .tick).1.phase = G1Phase.GAMEOVER ∧
    (g1Step walls ent s .tick).1.snake = s.snake ∧
    (g1Step walls ent s .tick).1.alive = false ∧
    (g1Step walls ent s .tick).1.lives = s.lives + 1 := by
  have hm : moveSnakeF s.snake s.dir = (s.snake, false) := by
    simp [moveSnakeF, hhit]
  refine ⟨hm, ?_, ?_, ?_, ?_⟩ <;>
    simp [g1Step, g1Apply, g1EffectCore, g1Emit, hm, hphase, halive, hfr, hw]

theorem c5_self_collision_witness :
    (g1Step [] (fun _ => (0, 0)) { g1Init with phase := G1Phase.PLAYING, dir := Direction.DOWN } G1Ev.tick).1.phase = G1Phase.GAMEOVER ∧
    (g1Step [] (fun _ => (0, 0)) { g1Init with phase := G1Phase.PLAYING, dir := Direction.DOWN } G1Ev.tick).1.snake = INITIAL_SNAKE := by
  have h := c5_self_collision [] (fun _ => (0, 0))
    { g1Init with phase := .PLAYING, dir := .DOWN } rfl rfl (by decide) (by decide)
    (by decide) (by decide)
  exact ⟨h.2.1, h.2.2.1⟩

/-! ## Claim C6 -/

theorem isColliding_river_false {f : Frog} :
    ∀ {l : List Obstacle} {p : Obstacle}, findPlatformUnder f l = some p →
      isColliding f l LaneType.RIVER = false := by
  intro l
  induction l with
  | nil =>
    intro p h
    exact absurd h (by simp [findPlatformUnder])
  | cons o rest ih =>
    intro p h
    by_cases ho : overlapB f o = true
    · simp [isColliding, ho]
    · have ho' : overlapB f o = false := Bool.eq_false_iff.mpr ho
      simp only [findPlatformUnder, ho', Bool.false_eq_true, if_false] at h
      simp only [isColliding, ho', Bool.false_eq_true, if_false]
      exact ih h

theorem isColliding_river_true {f : Frog} :
    ∀ {l : List Obstacle}, (∀ o ∈ l, overlapB f o = false) →
      isColliding f l LaneType.RIVER = true := by
  intro l
  induction l with
  | nil => intro _; rfl
  | cons o rest ih =>
    intro h
    have ho := h o (List.mem_cons_self o rest)
    simp only [isColliding, ho, Bool.false_eq_true, if_false]
    exact ih fun x hx => h x (List.mem_cons_of_mem o hx)

/-- C6 (amended): on a river lane, a player whose padded box overlaps a
platform survives the tick when the FIRST overlapping platform (the one
`findPlatformUnder` returns) is not a sinking turtle — not, as claimed,
whenever SOME overlapped platform is non-sinking — and a player whose
padded box overlaps no object loses a life, or the game when lives are
exhausted. -/
theorem c6_river_survival_amended (s : G4State) (lane : Lane)
    (hp : s.gameState = G4Status.playing)
    (hl : s.lanes.get? s.frog.y = some lane)
    (hr : lane.type = LaneType.RIVER) :
    (∀ p, findPlatformUnder s.frog lane.obstacles = some p →
      ¬ (p.type = ObjectType.TURTLE ∧ p.sinking = true) →
      g4Check s = (s, [])) ∧
    ((∀ o ∈ lane.obstacles, overlapB s.frog o = false) →
      (1 < s.lives →
        (g4Check s).1.lives = s.lives - 1 ∧ (g4Check s).1.frog = frogStart) ∧
      (s.lives ≤ 1 →
        (g4Check s).1.gameState = G4Status.lost ∧ (g4Check s).2 = [0])) := by
  simp only [List.get?_eq_getElem?] at hl
  have hng : ¬ lane.type = LaneType.GOAL := by rw [hr]; decide
  constructor
  · intro p hfp hnp
    have hcolR : isColliding s.frog lane.obstacles LaneType.RIVER = false :=
      isColliding_river_false hfp
    have hcol : isColliding s.frog lane.obstacles lane.type = false := by
      rw [hr]; exact hcolR
    simp [g4Check, hp, hl, hng, hcol, hcolR, hr, hfp, hnp]
  · intro hno
    have hcolR : isColliding s.frog lane.obstacles LaneType.RIVER = true :=
      isColliding_river_true hno
    have hcol : isColliding s.frog lane.obstacles lane.type = true := by
      rw [hr]; exact hcolR
    constructor
    · intro hlt
      refine ⟨?_, ?_⟩ <;> simp [g4Check, hp, hl, hng, hcol, hcolR, hlt]
    · intro hle
      have hnlt : ¬ 1 < s.lives := by omega
      refine ⟨?_, ?_⟩ <;> simp [g4Check, hp, hl, hng, hcol, hcolR, hnlt]

def c6Obs1 : Obstacle := ⟨3, .TURTLE, 1, true, 0⟩

def c6Obs2 : Obstacle := ⟨16 / 5, .TURTLE, 1, false, 0⟩

def c6Lane : Lane := ⟨.RIVER, [c6Obs1, c6Obs2], 2, 1, 1⟩

def c6State : G4State :=
  { gameState := .playing
    lives := 3
    time := 0
    frog := ⟨31 / 10, 1⟩
    lanes := [⟨.GOAL, [], 0, 1, 0⟩, c6Lane] }

/-- C6 counterexample: the frog overlaps the non-sinking turtle `c6Obs2`,
yet the tick is fatal (a life is lost and the frog resets) because the
sinking turtle `c6Obs1` is found first. -/
theorem c6_first_platform_cex :
    overlapB c6State.frog c6Obs2 = true ∧
    c6Obs2.sinking = false ∧
    c6Lane.type = LaneType.RIVER ∧
    c6State.lanes.get? c6State.frog.y = some c6Lane ∧
    (g4Check c6State).1.lives = 2 ∧
    (g4Check c6State).1.frog = frogStart := by
  have h1 : overlapB (⟨31 / 10, 1⟩ : Frog) (⟨3, .TURTLE, 1, true, 0⟩ : Obstacle) = true := by
    simp only [overlapB, HITBOX_PADDING, decide_eq_true_eq]
    norm_num
  have h2 : overlapB (⟨31 / 10, 1⟩ : Frog) (⟨16 / 5, .TURTLE, 1, false, 0⟩ : Obstacle) = true := by
    simp only [overlapB, HITBOX_PADDING, decide_eq_true_eq]
    norm_num
  refine ⟨by simp only [c6State, c6Obs2]; exact h2, rfl, rfl, rfl, ?_, ?_⟩ <;>
    simp [g4Check, c6State, c6Lane, c6Obs1, c6Obs2, isColliding, findPlatformUnder, h1, h2]

def c6WLane : Lane := ⟨.RIVER, [⟨3, .LOG, 2, false, 0⟩], 2, 1, 1⟩

def c6WState : G4State :=
  { gameState := .playing
    lives := 3
    time := 0
    frog := ⟨3, 1⟩
    lanes := [⟨.GOAL, [], 0, 1, 0⟩, c6WLane] }

def c6WState2 : G4State := { c6WState with frog := ⟨10, 1⟩ }

theorem c6_river_survival_amended_witness :
    g4Check c6WState = (c6WState, []) ∧
    (g4Check c6WState2).1.lives = 2 := by
  have hov : overlapB (⟨3, 1⟩ : Frog) (⟨3, .LOG, 2, false, 0⟩ : Obstacle) = true := by
    simp only [overlapB, HITBOX_PADDING, decide_eq_true_eq]
    norm_num
  have hnov : overlapB (⟨10, 1⟩ : Frog) (⟨3, .LOG, 2, false, 0⟩ : Obstacle) = false := by
    simp only [overlapB, HITBOX_PADDING, decide_eq_false_iff_not]
    norm_num
  constructor
  · refine (c6_river_survival_amended c6WState c6WLane rfl rfl rfl).1
      ⟨3, .LOG, 2, false, 0⟩ ?_ (by decide)
    show findPlatformUnder (⟨3, 1⟩ : Frog) [⟨3, .LOG, 2, false, 0⟩] = _
    simp [findPlatformUnder, hov]
  · refine (((c6_river_survival_amended c6WState2 c6WLane rfl rfl rfl).2 ?_).1 (by decide)).1
    intro o ho
    show overlapB (⟨10, 1⟩ : Frog) o = false
    have : o = ⟨3, .LOG, 2, false, 0⟩ := by
      simpa [c6WLane] using ho
    rw [this]
    exact hnov

/-! ## Claims C8 and C9 -/

def c8Dead : G1State :=
  { g1Init with phase := G1Phase.PLAYING, dir := Direction.DOWN, lives := 2 }

/-- C8 counterexample: a self-collision death in the snake game with lives
remaining goes straight to the terminal GAMEOVER phase (and fires the
completion callback), not back to COUNTDOWN. -/
theorem c8_selfdeath_cex :
    (g1Step [] (fun _ => (0, 0)) c8Dead .tick).1.phase = G1Phase.GAMEOVER ∧
    ¬ (g1Step [] (fun _ => (0, 0)) c8Dead .tick).1.phase = G1Phase.COUNTDOWN ∧
    (g1Step [] (fun _ => (0, 0)) c8Dead .tick).2 ≠ [] := by decide

/-- C8 (amended): in the snake game only WALL-collision life losses soft
reset to COUNTDOWN with the initial snake layout and the score preserved
(self-collision deaths are terminal regardless of lives); in the crossing
game a life-loss with more than one life left keeps playing with the frog
reset, and with the last life transitions to the terminal `lost` state,
emitting score 0. -/
theorem c8_life_loss_amended :
    (∀ (walls : List Point) (ent : EntStream) (s : G1State),
      s.phase = G1Phase.PLAYING → s.alive = true →
      containsPt s.snake (newHeadOf s.snake s.dir) = false →
      containsPt walls (newHeadOf s.snake s.dir) = true →
      s.fruit ≠ some (newHeadOf s.snake s.dir) →
      (g1Step walls ent s .tick).1.phase = G1Phase.COUNTDOWN ∧
      (g1Step walls ent s .tick).1.snake = INITIAL_SNAKE ∧
      (g1Step walls ent s .tick).1.score = s.score ∧
      (g1Step walls ent s .tick).1.lives = s.lives + 1 ∧
      (g1Step walls ent s .tick).2 = []) ∧
    (∀ (s : G4State) (lane : Lane),
      s.gameState = G4Status.playing →
      s.lanes.get? s.frog.y = some lane →
      ¬ lane.type = LaneType.GOAL →
      isColliding s.frog lane.obstacles lane.type = true →
      (1 < s.lives →
        (g4Check s).1.gameState = G4Status.playing ∧
        (g4Check s).1.lives = s.lives - 1 ∧
        (g4Check s).1.frog = frogStart) ∧
      (s.lives = 1 →
        (g4Check s).1.gameState = G4Status.lost ∧ (g4Check s).2 = [0])) := by
  constructor
  · intro walls ent s hphase halive hnc hw hfr
    have hm : moveSnakeF s.snake s.dir = (newHeadOf s.snake s.dir :: s.snake.dropLast, true) := by
      simp [moveSnakeF, hnc]
    refine ⟨?_, ?_, ?_, ?_, ?_⟩ <;>
      simp [g1Step, g1Apply, g1EffectCore, g1Emit, hm, hphase, halive, hfr, hw]
  · intro s lane hp hl hgoal hcol
    simp only [List.get?_eq_getElem?] at hl
    constructor
    · intro hlt
      refine ⟨?_, ?_, ?_⟩ <;> simp [g4Check, hp, hl, hgoal, hcol, hlt]
    · intro heq
      have hnlt : ¬ 1 < s.lives := by omega
      refine ⟨?_, ?_⟩ <;> simp [g4Check, hp, hl, hgoal, hcol, hnlt]

def c8RoadState : G4State :=
  { gameState := .playing
    lives := 1
    time := 0
    frog := ⟨7, 7⟩
    lanes := [⟨.GOAL, [], 0, 1, 0⟩, ⟨.SAFE, [], 0, 1, 1⟩, ⟨.SAFE, [], 0, 1, 2⟩,
      ⟨.SAFE, [], 0, 1, 3⟩, ⟨.SAFE, [], 0, 1, 4⟩, ⟨.SAFE, [], 0, 1, 5⟩,
      ⟨.SAFE, [], 0, 1, 6⟩, ⟨.ROAD, [⟨7, .CAR, 1, false, 0⟩], 2, 1, 7⟩] }

theorem c8_life_loss_amended_witness :
    (g1Step [⟨10, 9⟩] (fun _ => (0, 0)) { g1Init with phase := G1Phase.PLAYING } G1Ev.tick).1.phase = G1Phase.COUNTDOWN ∧
    (g4Check c8RoadState).1.gameState = G4Status.lost := by
  constructor
  · exact ((c8_life_loss_amended.1 [⟨10, 9⟩] (fun _ => (0, 0))
      { g1Init with phase := G1Phase.PLAYING } rfl rfl (by decide) (by decide) (by decide)).1)
  · refine ((c8_life_loss_amended.2 c8RoadState ⟨.ROAD, [⟨7, .CAR, 1, false, 0⟩], 2, 1, 7⟩ rfl rfl
      (by decide) ?_).2 rfl).1
    show isColliding (⟨7, 7⟩ : Frog) [⟨7, .CAR, 1, false, 0⟩] .ROAD = true
    have hov : overlapB (⟨7, 7⟩ : Frog) (⟨7, .CAR, 1, false, 0⟩ : Obstacle) = true := by
      simp only [overlapB, HITBOX_PADDING, decide_eq_true_eq]
      norm_num
    simp [isColliding, hov]

def c9Start : G1State := { g1Init with phase := G1Phase.PLAYING }

/-- C9 counterexample: two inputs applied between ticks both take effect
(UP -> LEFT -> DOWN), so the direction can reverse 180 degrees across one
tick: there is no one-change-per-tick queue. -/
theorem c9_double_input_cex :
    c9Start.dir = Direction.UP ∧
    (g1Apply [] (fun _ => (0, 0)) c9Start (.input .LEFT)).dir = Direction.LEFT ∧
    (g1Apply [] (fun _ => (0, 0)) (g1Apply [] (fun _ => (0, 0)) c9Start (.input .LEFT))
      (.input .DOWN)).dir = Direction.DOWN ∧
    oppositeDir Direction.UP = Direction.DOWN := by decide

/-- C9 (amended): an input that is the exact 180-degree reversal of the
current direction is silently ignored and any other input replaces the
direction immediately -- but each input is applied as it arrives, so more
than one directional change can take effect within a single tick. -/
theorem c9_direction_amended :
    (∀ d : Direction, changeDir d (oppositeDir d) = d) ∧
    (∀ d i : Direction, i ≠ oppositeDir d → changeDir d i = i) := by
  constructor
  · intro d
    cases d <;> rfl
  · intro d i h
    cases d <;> cases i <;> first
      | rfl
      | exact absurd rfl h

theorem c9_direction_amended_witness :
    changeDir Direction.UP Direction.LEFT = Direction.LEFT :=
  c9_direction_amended.2 Direction.UP Direction.LEFT (by decide)

/-! ## Claims C7 and C10: the hay-store invariant -/

theorem ratioEq (x : ℚ) : min (x * 100) 100 / 100 = min x 1 := by
  rw [← min_div_div_right (by norm_num : (0 : ℚ) ≤ 100) (x * 100) 100,
    mul_div_cancel_right₀ x (by norm_num : (100 : ℚ) ≠ 0),
    div_self (by norm_num : (100 : ℚ) ≠ 0)]

/-- The covered-hay value the covering branch of `tick` writes at wall-clock
time `t`, for a transfer that started at `t0` with duration `dur`, moving
`h` hay on top of `cov`. -/
def coverBound (cov h dur t t0 : ℚ) : ℚ :=
  max 0 (cov + ((Int.floor (h * (min ((t - t0) / 1000 / dur * 100) 100 / 100)) : ℤ) : ℚ))

theorem coverBound_mono (cov h dur t t' t0 : ℚ) (ht : t ≤ t') (hh : 0 ≤ h)
    (hd : 0 < dur) : coverBound cov h dur t t0 ≤ coverBound cov h dur t' t0 := by
  unfold coverBound
  apply max_le_max le_rfl
  apply add_le_add_left
  have hr : min ((t - t0) / 1000 / dur * 100) 100 / 100 ≤
      min ((t' - t0) / 1000 / dur * 100) 100 / 100 := by
    apply (div_le_div_iff_of_pos_right (by norm_num : (0 : ℚ) < 100)).mpr
    apply min_le_min _ le_rfl
    apply mul_le_mul_of_nonneg_right _ (by norm_num : (0 : ℚ) ≤ 100)
    apply (div_le_div_iff_of_pos_right hd).mpr
    apply (div_le_div_iff_of_pos_right (by norm_num : (0 : ℚ) < 1000)).mpr
    exact sub_le_sub_right ht t0
  exact_mod_cast Int.floor_le_floor (mul_le_mul_of_nonneg_left hr hh)

/-- The inductive invariant of the hay store: hay quantities are
non-negative, and during a transfer the current `coveredHay` is bounded by
the value the covering branch would write at the current wall-clock time. -/
def hayInv (s : HayState) (t : ℚ) : Prop :=
  0 ≤ s.uncoveredHay ∧ 0 ≤ s.coveredHay ∧ 0 ≤ s.hayBeingTransferred ∧
  (s.isCovering = true → ∃ t0, s.coverStartTime = some t0 ∧ t0 ≤ t ∧
    0 < s.coverDuration ∧ 0 ≤ s.startCoveredHay ∧
    s.coveredHay ≤ coverBound s.startCoveredHay s.hayBeingTransferred s.coverDuration t t0)

theorem hayInv_clock_mono {s : HayState} {t t' : ℚ} (h : t ≤ t') :
    hayInv s t → hayInv s t' := by
  rintro ⟨h1, h2, h3, h4⟩
  refine ⟨h1, h2, h3, fun hc => ?_⟩
  obtain ⟨t0, ha, hb, hd, he, hf⟩ := h4 hc
  exact ⟨t0, ha, hb.trans h, hd, he,
    hf.trans (coverBound_mono _ _ _ _ _ _ h h3 hd)⟩

set_option maxHeartbeats 1000000 in
theorem hayInv_tick {s : HayState} {t now e1 e2 : ℚ} (ht : t ≤ now)
    (inv : hayInv s t) : hayInv (hayTick s now e1 e2) now := by
  obtain ⟨h1, h2, h3, h4⟩ := hayInv_clock_mono ht inv
  unfold hayTick
  by_cases hg : s.isPlaying = false ∨ s.isGameOver = true
  · rw [if_pos hg]
    exact ⟨h1, h2, h3, h4⟩
  rw [if_neg hg]
  by_cases hend : (now - s.startTime) / 1000 ≥ GAME_DURATION
  · rw [if_pos hend]
    refine ⟨h1, h2, h3, fun hc => ?_⟩
    obtain ⟨t0, ha, hb, hd, he, hf⟩ := h4 hc
    exact ⟨t0, ha, hb, hd, he, hf⟩
  rw [if_neg hend]
  by_cases hcov : s.isCovering = true
  · obtain ⟨t0, hst, ht0, hdur, hscov, hbound⟩ := h4 hcov
    simp only [hcov, hst, Bool.true_eq_false, false_and, if_false]
    refine ⟨?_, ?_, ?_, ?_⟩
    · repeat' split
      all_goals dsimp only
      all_goals first
        | exact h1
        | exact le_max_left 0 _
        | exact le_min (by linarith) (by norm_num [MAX_FIELD_HAY])
    · repeat' split
      all_goals dsimp only
      all_goals first
        | exact h2
        | exact le_max_left 0 _
    · repeat' split
      all_goals dsimp only
      all_goals first
        | exact h3
        | exact le_rfl
    · repeat' split
      all_goals dsimp only
      all_goals first
        | (intro hc; exact absurd hc (by decide))
        | (intro hc;
            refine ⟨t0, rfl, ht0, hdur, hscov, ?_⟩;
            unfold coverBound;
            first
              | exact le_rfl
              | simp)
  · have hcov' : s.isCovering = false := Bool.eq_false_iff.mpr hcov
    simp only [hcov']
    refine ⟨?_, ?_, ?_, fun hc => ?_⟩
    · repeat' split
      all_goals dsimp only
      all_goals first
        | exact h1
        | exact le_max_left 0 _
        | exact le_min (by linarith) (by norm_num [MAX_FIELD_HAY])
    · repeat' split
      all_goals dsimp only
      all_goals exact h2
    · repeat' split
      all_goals dsimp only
      all_goals exact h3
    · exfalso
      revert hc
      repeat' split
      all_goals dsimp only
      all_goals simp [hcov']

theorem hayInv_init (t : ℚ) : hayInv hayInit t := by
  refine ⟨le_rfl, le_rfl, le_rfl, fun hc => ?_⟩
  simp [hayInit] at hc

theorem hayInv_startGame {s : HayState} {now e : ℚ} {t : ℚ} (inv : hayInv s t) :
    hayInv (hayStartGame s now e) now := by
  obtain ⟨h1, h2, h3, h4⟩ := inv
  refine ⟨?_, ?_, ?_, fun hc => ?_⟩
  · exact le_rfl
  · exact le_rfl
  · exact h3
  · simp [hayStartGame] at hc

theorem hayInv_makeHay {s : HayState} {t now : ℚ} (ht : t ≤ now) (inv : hayInv s t) :
    hayInv (hayMakeHay s now) now := by
  obtain ⟨h1, h2, h3, h4⟩ := hayInv_clock_mono ht inv
  unfold hayMakeHay
  split
  · exact ⟨h1, h2, h3, h4⟩
  split
  · exact ⟨h1, h2, h3, h4⟩
  exact ⟨h1, h2, h3, fun hc => h4 hc⟩

theorem hayInv_startCovering {s : HayState} {t now : ℚ} (ht : t ≤ now) (inv : hayInv s t) :
    hayInv (hayStartCovering s now) now := by
  obtain ⟨h1, h2, h3, h4⟩ := hayInv_clock_mono ht inv
  unfold hayStartCovering
  split
  · exact ⟨h1, h2, h3, h4⟩
  next hguard =>
    push_neg at hguard
    obtain ⟨-, -, -, hpos⟩ := hguard
    refine ⟨h1, h2, h1, fun _ => ⟨now, rfl, le_rfl, ?_, h2, ?_⟩⟩
    · show 0 < calculateCoverDuration s.uncoveredHay
      unfold calculateCoverDuration BASE_COVER_TIME COVER_SCALING_FACTOR
      nlinarith [hpos]
    · show s.coveredHay ≤ coverBound s.coveredHay s.uncoveredHay
        (calculateCoverDuration s.uncoveredHay) now now
      unfold coverBound
      rw [sub_self]
      simp [Int.floor_zero]

theorem hayInv_stopCovering {s : HayState} {t : ℚ} (inv : hayInv s t) :
    hayInv (hayStopCovering s) t := by
  obtain ⟨h1, h2, h3, h4⟩ := inv
  unfold hayStopCovering
  split
  · exact ⟨h1, h2, h3, h4⟩
  refine ⟨le_max_left 0 _, h2, le_rfl, fun hc => ?_⟩
  simp at hc

theorem hayInv_endGame {s : HayState} {t : ℚ} (inv : hayInv s t) :
    hayInv (hayEndGame s) t := by
  obtain ⟨h1, h2, h3, h4⟩ := inv
  exact ⟨h1, h2, h3, fun hc => h4 hc⟩

/-- Every reachable state of the hay store satisfies the invariant. -/
theorem hayReach_inv {s : HayState} {t : ℚ} (h : HayReach s t) : hayInv s t := by
  induction h with
  | init t => exact hayInv_init t
  | step op hr hv ih =>
    cases op with
    | startGame now e => exact hayInv_startGame ih
    | tick now e1 e2 => exact hayInv_tick hv.1 ih
    | makeHay now => exact hayInv_makeHay hv ih
    | startCovering now => exact hayInv_startCovering hv ih
    | stopCovering => exact hayInv_stopCovering ih
    | endGame => exact hayInv_endGame ih

set_option maxHeartbeats 1000000 in
theorem tick_covered_mono {s : HayState} {t now e1 e2 : ℚ} (ht : t ≤ now)
    (inv : hayInv s t) : s.coveredHay ≤ (hayTick s now e1 e2).coveredHay := by
  obtain ⟨h1, h2, h3, h4⟩ := hayInv_clock_mono ht inv
  unfold hayTick
  by_cases hg : s.isPlaying = false ∨ s.isGameOver = true
  · rw [if_pos hg]
  rw [if_neg hg]
  by_cases hend : (now - s.startTime) / 1000 ≥ GAME_DURATION
  · rw [if_pos hend]
    exact le_rfl
  rw [if_neg hend]
  by_cases hcov : s.isCovering = true
  · obtain ⟨t0, hst, ht0, hdur, hscov, hbound⟩ := h4 hcov
    simp only [hcov, hst, Bool.true_eq_false, false_and, if_false]
    repeat' split
    all_goals dsimp only
    all_goals first
      | exact le_rfl
      | exact (by unfold coverBound at hbound; exact hbound)
  · have hcov' : s.isCovering = false := Bool.eq_false_iff.mpr hcov
    simp only [hcov']
    repeat' split
    all_goals dsimp only
    all_goals exact le_rfl

/-- C10: within a session, every store operation other than `startGame`
(`tick`, `makeHay`, `startCovering`, `stopCovering`, `endGame`), issued with
a non-decreasing timestamp from a reachable state, leaves `coveredHay`
greater than or equal to its value before the operation: hay moved to the
barn is never lost. -/
theorem c10_coveredHay_mono {s : HayState} {t : ℚ} (op : HayOp)
    (hr : HayReach s t) (hv : hayOpValid t op) (hop : op.isStart = false) :
    s.coveredHay ≤ (applyHayOp s op).coveredHay := by
  have inv := hayReach_inv hr
  cases op with
  | startGame now e => simp [HayOp.isStart] at hop
  | tick now e1 e2 => exact tick_covered_mono hv.1 inv
  | makeHay now =>
    show s.coveredHay ≤ (hayMakeHay s now).coveredHay
    unfold hayMakeHay
    repeat' split
    all_goals exact le_rfl
  | startCovering now =>
    show s.coveredHay ≤ (hayStartCovering s now).coveredHay
    unfold hayStartCovering
    repeat' split
    all_goals exact le_rfl
  | stopCovering =>
    show s.coveredHay ≤ (hayStopCovering s).coveredHay
    unfold hayStopCovering
    repeat' split
    all_goals exact le_rfl
  | endGame => exact le_rfl

theorem c10_coveredHay_mono_witness :
    (applyHayOp hayInit (HayOp.startGame 0 0)).coveredHay ≤
      (applyHayOp (applyHayOp hayInit (HayOp.startGame 0 0))
        (HayOp.tick 100 0 0)).coveredHay :=
  c10_coveredHay_mono (HayOp.tick 100 0 0)
    (HayReach.step (HayOp.startGame 0 0) (HayReach.init 0)
      (by norm_num [hayOpValid]))
    (by norm_num [hayOpValid, hayOpClock]) rfl

/-- C7: (1) in every reachable state of the hay store the uncovered hay is
non-negative; (2) a tick taken while playing, before the game-duration
cutoff, with no covering transfer active, positive uncovered hay and a
weather whose hay-loss rate is positive, sets the uncovered hay to
`max 0 (uncovered - rate * TICK_RATE / 1000)`, a strict decrease. -/
theorem c7_hay_drain :
    (∀ (s : HayState) (t : ℚ), HayReach s t → 0 ≤ s.uncoveredHay) ∧
    (∀ (s : HayState) (now e1 e2 : ℚ),
      s.isPlaying = true → s.isGameOver = false → s.isCovering = false →
      0 < s.uncoveredHay →
      0 < (WEATHER_CONFIGS s.weather.current).hayLossRate →
      (now - s.startTime) / 1000 < GAME_DURATION →
      (hayTick s now e1 e2).uncoveredHay =
        max 0 (s.uncoveredHay -
          (WEATHER_CONFIGS s.weather.current).hayLossRate * TICK_RATE / 1000) ∧
      (hayTick s now e1 e2).uncoveredHay < s.uncoveredHay) := by
  constructor
  · exact fun s t h => (hayReach_inv h).1
  intro s now e1 e2 hp hgo hcov hupos hrate hlt
  have heq : (hayTick s now e1 e2).uncoveredHay =
      max 0 (s.uncoveredHay -
        (WEATHER_CONFIGS s.weather.current).hayLossRate * TICK_RATE / 1000) := by
    unfold hayTick
    rw [if_neg (by simp [hp, hgo]), if_neg (not_le.mpr hlt)]
    simp only [hcov, eq_self_iff_true, true_and, hupos, if_true, hrate]
    repeat' split
    all_goals dsimp only
    all_goals rfl
  refine ⟨heq, ?_⟩
  rw [heq]
  have h10 : 0 < (WEATHER_CONFIGS s.weather.current).hayLossRate * TICK_RATE / 1000 :=
    div_pos (mul_pos hrate (by norm_num [TICK_RATE])) (by norm_num)
  exact max_lt hupos (by linarith)

def c7State : HayState :=
  { hayInit with
    isPlaying := true
    uncoveredHay := 1
    weather := ⟨.WINDY, 50, 50⟩ }

theorem c7_hay_drain_witness :
    0 ≤ hayInit.uncoveredHay ∧
    (hayTick c7State 100 0 0).uncoveredHay =
      max 0 (c7State.uncoveredHay -
        (WEATHER_CONFIGS c7State.weather.current).hayLossRate * TICK_RATE / 1000) ∧
    (hayTick c7State 100 0 0).uncoveredHay < c7State.uncoveredHay :=
  ⟨c7_hay_drain.1 hayInit 0 (HayReach.init 0),
   c7_hay_drain.2 c7State 100 0 0 rfl rfl rfl
     (by show (0:ℚ) < 1; norm_num)
     (by show (0:ℚ) < 3/2; norm_num)
     (by show ((100:ℚ) - 0) / 1000 < 90; norm_num)⟩

end Advent
